import Mathlib

/-
Shallow embedding of the core of the road_data_scraper repository
(src/road_data_scraper/steps/metadata.py, steps/download.py, main.py),
with theorems checking the natural-language specification against it.

Conventions of the embedding:
- Python strings are Lean String; the Python substring test "pat in s" is
  strContains s pat below.
- pandas DataFrames are lists of records; DataFrame.query filters preserve
  row order, so they are List.filter.
- exceptions (ValueError, json parse failures) are Except / Option values;
- the side effects of a worker (CSV append, logging calls, sleeping) are
  recorded in an explicit effects record, and the process-wide COUNTER
  of download.py is threaded through as explicit state.
-/

namespace RoadData

/-- Python substring membership test: "pat in s" for str values. -/
def strContains (s pat : String) : Bool := decide (pat.toList <:+: s.toList)

/-! ### metadata.py -/

/-- Constant BASE_URL of metadata.py. -/
def BASE_URL : String := "https://webtris.highwaysengland.co.uk/api/v1/"

/-- Source function name_string_cleaner (metadata.py lines 151-173):
an if/elif chain of case-sensitive substring tests on the site name. -/
def name_string_cleaner (record : String) : String :=
  if strContains record "MIDAS" then "midas"
  else if strContains record "TMU" then "tmu"
  else if strContains record "TAME" then "tame"
  else if strContains record "Legacy Site" then "Legacy Site"
  else record

/-- Source function direction_string_cleaner (metadata.py lines 119-148):
an if/elif chain of substring tests on the direction string. The
"anti-clockwise" branch of the source is kept even though it is shadowed
by the "clockwise" branch, exactly as in the source. -/
def direction_string_cleaner (record : String) : String :=
  if strContains record "eastbound" then "eastbound"
  else if strContains record "northbound" then "northbound"
  else if strContains record "southbound" then "southbound"
  else if strContains record "westbound" then "westbound"
  else if strContains record "clockwise" then "clockwise"
  else if strContains record "anti-clockwise" then "clockwise"
  else if strContains record "legacy site" then "legacy site"
  else if strContains record "on connector" then "carriageway connector"
  else record

/-- First match of the regular expression (\d+;\d+) in a character list,
returning the two digit runs split on the ";", as in
lookup_df["name"].str.extract(r"(\d+;\d+)")[0].str.split(";") of
metadata.py lines 194-196. Scanning left to right, the first match of
this pattern starts at the start of a maximal digit run that is followed
by ";" and at least one further digit. Returns none when there is no
match (pandas NaN, propagated as null). -/
def findEN : List Char → Option (String × String)
  | [] => none
  | c :: rest =>
    if c.isDigit then
      match (c :: rest).dropWhile Char.isDigit with
      | ';' :: a2 =>
        let second := a2.takeWhile Char.isDigit
        if second.isEmpty then findEN rest
        else some (String.mk ((c :: rest).takeWhile Char.isDigit), String.mk second)
      | _ => findEN rest
    else findEN rest

/-- One raw record of the site directory returned by GET BASE_URL/sites,
after lower-casing the column labels (metadata.py line 190): fields
id, name, description, longitude, latitude, status. The id column is
coerced to an integer (line 191). Longitude, latitude and status carry
through the pipeline unchanged, so they are kept abstract as strings. -/
structure RawSite where
  id : Int
  name : String
  description : String
  longitude : String
  latitude : String
  status : String
deriving DecidableEq

/-- One row of lookup_df after the cleaning steps of get_sites_by_sensor
(metadata.py lines 189-201): direction and easting/northing are derived
from the raw name, then the name itself is cleaned. easting/northing are
none when the name has no "digits;digits" group (pandas NaN). -/
structure LookupRow where
  id : Int
  name : String
  description : String
  longitude : String
  latitude : String
  status : String
  direction : String
  easting : Option String
  northing : Option String
deriving DecidableEq

/-- The per-row cleaning work of get_sites_by_sensor, lines 191-201:
direction is the last "; "-separated segment of the raw name, lower-cased
and passed through direction_string_cleaner; easting/northing come from
the first (\d+;\d+) match; the name is cleaned last (the direction and
easting extraction read the raw name, as in the source, where line 201
reassigns the name column only after lines 193-199). -/
def cleanSite (r : RawSite) : LookupRow :=
  { id := r.id
    name := name_string_cleaner r.name
    description := r.description
    longitude := r.longitude
    latitude := r.latitude
    status := r.status
    direction := direction_string_cleaner ((r.name.splitOn "; ").getLastD "").toLower
    easting := (findEN r.name.toList).map Prod.fst
    northing := (findEN r.name.toList).map Prod.snd }

/-- The sensor_tables dictionary built at metadata.py lines 210-215. -/
structure SensorTables where
  midas : List LookupRow
  tmu : List LookupRow
  tame : List LookupRow
  other : List LookupRow
deriving DecidableEq

/-- Dictionary access sensor_tables[sensor_name]; in the source it is only
reached after the sensor_name membership check, so the default [] branch
is dead there. -/
def SensorTables.get (t : SensorTables) (sensor_name : String) : List LookupRow :=
  if sensor_name = "midas" then t.midas
  else if sensor_name = "tmu" then t.tmu
  else if sensor_name = "tame" then t.tame
  else if sensor_name = "other" then t.other
  else []

/-- Source function get_sites_by_sensor (metadata.py lines 176-216),
taking the parsed directory snapshot as input (the GET itself is outside
the model). Builds the cleaned lookup table, then the four buckets via
DataFrame.query with name.str.contains, which filters by substring on the
cleaned name, preserving row order. -/
def get_sites_by_sensor (sites : List RawSite) : SensorTables × List LookupRow :=
  let lookup := sites.map cleanSite
  ({ midas := lookup.filter (fun r => strContains r.name "midas")
     tmu := lookup.filter (fun r => strContains r.name "tmu")
     tame := lookup.filter (fun r => strContains r.name "tame")
     other := lookup.filter (fun r =>
       !(strContains r.name "midas" || strContains r.name "tmu" ||
         strContains r.name "tame")) },
   lookup)

/-- The metadata tuple built by create_sensor_metadata_tuples, named as in
the UrlMetadata dataclass of download.py (the third tuple slot, the cleaned
name column, lands in the site_type field). -/
structure UrlMetadata where
  url : String
  site_id : Int
  site_type : String
  direction : String
  longitude : String
  latitude : String
  status : String
  easting : Option String
  northing : Option String
deriving DecidableEq

/-- The URL template of metadata.py lines 60-63. -/
def sensor_url (start_date end_date : String) (site : Int) : String :=
  BASE_URL ++ "reports/" ++ start_date ++ "/to/" ++ end_date ++
    "/daily?sites=" ++ toString site ++ "&page=1&page_size=40000"

/-- One zipped tuple of create_sensor_metadata_tuples lines 65-77. -/
def rowToUrlMetadata (start_date end_date : String) (r : LookupRow) : UrlMetadata :=
  { url := sensor_url start_date end_date r.id
    site_id := r.id
    site_type := r.name
    direction := r.direction
    longitude := r.longitude
    latitude := r.latitude
    status := r.status
    easting := r.easting
    northing := r.northing }

/-- Source function create_sensor_metadata_tuples (metadata.py lines
29-78): raises ValueError when sensor_name is not midas/tame/tmu, else
emits one (url, metadata) tuple per record of the bucket, in bucket
order (a list comprehension over the id column zipped with the other
columns of the same bucket). -/
def create_sensor_metadata_tuples (sensor_tables : SensorTables)
    (start_date end_date : String) (sensor_name : String) :
    Except String (List UrlMetadata) :=
  if sensor_name = "midas" ∨ sensor_name = "tame" ∨ sensor_name = "tmu" then
    .ok ((sensor_tables.get sensor_name).map (rowToUrlMetadata start_date end_date))
  else
    .error "Available Sensors are: midas, tame, tmu."

/-- Left-pad a decimal numeral with zeros to width w, as strftime does for
the %d, %m and %Y fields. -/
def padNum (w : Nat) (n : Nat) : String :=
  let s := toString n
  String.mk (List.replicate (w - s.length) '0') ++ s

/-- Whether a year is a leap year (Gregorian). -/
def isLeap (y : Nat) : Bool := (y % 4 == 0 && y % 100 != 0) || (y % 400 == 0)

/-- Days in a month, for validating the day field as datetime does. -/
def daysInMonth (y m : Nat) : Nat :=
  if m = 2 then (if isLeap y then 29 else 28)
  else if m = 4 ∨ m = 6 ∨ m = 9 ∨ m = 11 then 30
  else 31

/-- Split a character list on the dash character (the field separator of
the %Y-%m-%d format). -/
def splitOnDash : List Char → List (List Char)
  | [] => [[]]
  | c :: rest =>
    let r := splitOnDash rest
    if c = '-' then [] :: r
    else
      match r with
      | [] => [[c]]
      | h :: t => (c :: h) :: t

/-- Parse a nonempty all-digit character run as a decimal number. -/
def digitsToNat? (cs : List Char) : Option Nat :=
  if cs.isEmpty then none
  else if cs.all Char.isDigit then
    some (cs.foldl (fun n c => n * 10 + (c.toNat - 48)) 0)
  else none

/-- datetime.datetime.strptime(s, "%Y-%m-%d") of metadata.py lines
106-109: splits on the dash, requires three numeric fields forming a
valid calendar date; none models the ValueError raised on malformed
input. -/
def parseDate (s : String) : Option (Nat × Nat × Nat) :=
  match splitOnDash s.toList with
  | [y, m, d] =>
    match digitsToNat? y, digitsToNat? m, digitsToNat? d with
    | some yn, some mn, some dn =>
      if 1 ≤ yn ∧ yn ≤ 9999 ∧ 1 ≤ mn ∧ mn ≤ 12 ∧ 1 ≤ dn ∧ dn ≤ daysInMonth yn mn
      then some (yn, mn, dn) else none
    | _, _, _ => none
  | _ => none

/-- strftime("%d%m%Y") on a parsed (year, month, day). -/
def strftime_ddmmyyyy (d : Nat × Nat × Nat) : String :=
  padNum 2 d.2.2 ++ padNum 2 d.2.1 ++ padNum 4 d.1

/-- Source function get_sensor_urls (metadata.py lines 81-116): reformats
both dates from %Y-%m-%d to %d%m%Y, then builds the midas, tmu and tame
tuple lists. A date that strptime rejects raises (error branch). -/
def get_sensor_urls (sensor_tables : SensorTables) (start_date end_date : String) :
    Except String (List UrlMetadata × List UrlMetadata × List UrlMetadata) :=
  match parseDate start_date, parseDate end_date with
  | some sd, some ed =>
    let s := strftime_ddmmyyyy sd
    let e := strftime_ddmmyyyy ed
    match create_sensor_metadata_tuples sensor_tables s e "midas" with
    | .error msg => .error msg
    | .ok midas_metadata =>
      match create_sensor_metadata_tuples sensor_tables s e "tmu" with
      | .error msg => .error msg
      | .ok tmu_metadata =>
        match create_sensor_metadata_tuples sensor_tables s e "tame" with
        | .error msg => .error msg
        | .ok tame_metadata => .ok (midas_metadata, tmu_metadata, tame_metadata)
  | _, _ => .error "time data does not match format Y-m-d"

/-! ### download.py -/

/-- The CSV header list of _get_headers (download.py lines 117-164). -/
def get_headers : List String :=
  ["site_id", "site_name", "report_date", "time_period_end", "interval",
   "len_0_520_cm", "len_521_660_cm", "len_661_1160_cm", "len_1160_plus_cm",
   "speed_0_10_mph", "speed_11_15_mph", "speed_16_20_mph", "speed_21_25_mph",
   "speed_26_30_mph", "speed_31_35_mph", "speed_36_40_mph", "speed_41_45_mph",
   "speed_46_50_mph", "speed_51_55_mph", "speed_56_60_mph", "speed_61_70_mph",
   "speed_71_80_mph", "speed_80_plus_mph", "speed_avg_mph", "total_vol",
   "longitude", "latitude", "sites_status", "type", "direction",
   "easting", "northing"]

/-- One HTTP response as the worker observes it: the status code, and the
parse of the body as the expected JSON shape, an object with a "Rows"
array of row records. rows = none models a body on which
response.json()["Rows"] raises (not JSON, or no Rows key): the
MalformedPayload case. Each row is its CSV cell list. -/
structure HttpResponse where
  status_code : Nat
  rows : Option (List (List String))
deriving DecidableEq

/-- Print an optional cell as to_csv does (NaN prints as empty). -/
def optCell (o : Option String) : String := o.getD ""

/-- Source function _response_to_df (download.py lines 167-194) applied to
the parsed Rows list: insert site_id as first column, then assign the
seven metadata columns at the end of every row. -/
def response_to_df (rows : List (List String)) (metadata : UrlMetadata) :
    List (List String) :=
  rows.map (fun row =>
    toString metadata.site_id :: row ++
      [metadata.longitude, metadata.latitude, metadata.status,
       metadata.site_type, metadata.direction,
       optCell metadata.easting, optCell metadata.northing])

/-- Observable effects of one get_url call: the COUNTER value after the
locked increment, whether the progress log line fired, the rows appended
to the CSV (none when _response_to_df raised before the append), the
logging.error call (status code and URL) when it ran, the seconds slept,
and whether a MalformedPayload exception escaped the worker. -/
structure GetUrlEffects where
  counterAfter : Nat
  progressLogged : Bool
  appendedRows : Option (List (List String))
  errorLogged : Option (Nat × String)
  sleptSeconds : Nat
  raisedMalformed : Bool
deriving DecidableEq

/-- Source function get_url (download.py lines 197-254), given the
response the session returned for metadata.url and the COUNTER value
before the call. In the source the increment is guarded by COUNTER_LOCK,
so each call adds exactly 1; the parse of the body (line 241) happens
after the increment and before the append (line 243), the error log
(lines 245-248) and the 5xx sleep (lines 250-252), so when the body is
malformed none of those three later effects happen and the exception
escapes. -/
def get_url (resp : HttpResponse) (metadata : UrlMetadata)
    (total_urls : Nat) (counter : Nat) : GetUrlEffects :=
  let counterNow := counter + 1
  let log_interval := max 1 (total_urls / 10)
  let progress := (counterNow % log_interval == 0) || (counterNow == total_urls)
  match resp.rows with
  | none =>
    { counterAfter := counterNow
      progressLogged := progress
      appendedRows := none
      errorLogged := none
      sleptSeconds := 0
      raisedMalformed := true }
  | some rows =>
    { counterAfter := counterNow
      progressLogged := progress
      appendedRows := some (response_to_df rows metadata)
      errorLogged := if resp.status_code ≠ 200
        then some (resp.status_code, metadata.url) else none
      sleptSeconds := if 500 ≤ resp.status_code ∧ resp.status_code < 600
        then 5 else 0
      raisedMalformed := false }

/-- The executor.map(get_url, ...) run of download.py lines 297-307: every
request is dispatched and its worker runs get_url once; the shared COUNTER
is threaded through (its increments are serialized by COUNTER_LOCK, so
the final value does not depend on scheduling order and the per-request
data effects do not depend on the counter at all). Each request is paired
with the response the session returns for its URL. Returns the effects
list, in request order, and the final COUNTER value. -/
def runWorkers (requests : List (HttpResponse × UrlMetadata))
    (total_urls : Nat) (counter : Nat) : List GetUrlEffects × Nat :=
  match requests with
  | [] => ([], counter)
  | (resp, m) :: rest =>
    let e := get_url resp m total_urls counter
    let (es, c2) := runWorkers rest total_urls e.counterAfter
    (e :: es, c2)

/-- Result of a completed download call: the output CSV (created with mode
"w", which truncates, and given the header row), the per-request worker
effects, and the COUNTER value when the pool has drained. -/
structure DownloadResult where
  csvPath : String
  headerWritten : List String
  outcomes : List GetUrlEffects
  counterAfter : Nat
deriving DecidableEq

/-- Source function download (download.py lines 257-309): the site_name
check raises ValueError before the output file is created or truncated;
otherwise the CSV is created with its header and every request is mapped
over the pool. The error branch therefore carries no DownloadResult and
in particular no file creation. -/
def download (site_name start_date end_date : String)
    (requests : List (HttpResponse × UrlMetadata)) (test_run : Bool)
    (run_id_path : String) (counter : Nat) : Except String DownloadResult :=
  if ¬(site_name = "midas" ∨ site_name = "tame" ∨ site_name = "tmu") then
    .error "Available sites are: midas, tame, tmu."
  else
    let full_csv_name :=
      if test_run then
        run_id_path ++ "/" ++ site_name ++ "_" ++ start_date ++ "-" ++
          end_date ++ "_TEST_RUN.csv"
      else
        run_id_path ++ "/" ++ site_name ++ "_" ++ start_date ++ "-" ++
          end_date ++ ".csv"
    let total_urls := requests.length
    let (outcomes, c2) := runWorkers requests total_urls counter
    .ok { csvPath := full_csv_name
          headerWritten := get_headers
          outcomes := outcomes
          counterAfter := c2 }

/-! ### main.py -/

/-- The test-run slice of main.py lines 118-122: metadata[1:2]. -/
def testRunSlice (test_run : Bool) (l : List α) : List α :=
  if test_run then (l.drop 1).take 1 else l

/-- The download phase sequencing of main.py lines 118-134: slice each
category metadata list when test_run is set, then run download for midas,
tmu and tame strictly in that order. The module-level COUNTER of
download.py is initialized to 0 once at import and is never reset between
the three calls, so each phase starts from the value the previous phase
left behind. An uncaught exception from download aborts the run (error
branch). -/
def run_downloads (start_date end_date run_id_path : String) (test_run : Bool)
    (midas_requests tmu_requests tame_requests : List (HttpResponse × UrlMetadata)) :
    Except String (DownloadResult × DownloadResult × DownloadResult) :=
  match download "midas" start_date end_date
      (testRunSlice test_run midas_requests) test_run run_id_path 0 with
  | .error msg => .error msg
  | .ok mres =>
    match download "tmu" start_date end_date
        (testRunSlice test_run tmu_requests) test_run run_id_path mres.counterAfter with
    | .error msg => .error msg
    | .ok tres =>
      match download "tame" start_date end_date
          (testRunSlice test_run tame_requests) test_run run_id_path tres.counterAfter with
      | .error msg => .error msg
      | .ok ares => .ok (mres, tres, ares)

/-! ### Concrete sample values, shared by witnesses and counterexamples -/

/-- A sample metadata tuple for one midas site (id 2). -/
def sampleMetadata : UrlMetadata :=
  { url := sensor_url "01012021" "31012021" 2
    site_id := 2
    site_type := "midas"
    direction := "southbound"
    longitude := "-0.320275"
    latitude := "52.535158"
    status := "Active"
    easting := some "514029"
    northing := some "294356" }

/-- A sample well-formed 200 response carrying one row. -/
def sampleOkResponse : HttpResponse :=
  { status_code := 200
    rows := some [["A1M/2259B", "2021-01-01T00:00:00", "00:14:00"]] }

/-- A sample 503 response whose body still parses as the expected shape. -/
def sample503Response : HttpResponse :=
  { status_code := 503
    rows := some [["A1M/2259B", "2021-01-01T00:00:00", "00:29:00"]] }

/-- A sample response whose body cannot be parsed as the expected JSON
shape (response.json()["Rows"] raises): the MalformedPayload case. -/
def sampleMalformedResponse : HttpResponse :=
  { status_code := 200
    rows := none }

/-- A sample lookup row for one midas site (id 2). -/
def sampleRow : LookupRow :=
  { id := 2
    name := "midas"
    description := "A1M/2259B"
    longitude := "-0.320275"
    latitude := "52.535158"
    status := "Active"
    direction := "southbound"
    easting := some "514029"
    northing := some "294356" }

/-- Sample sensor tables with a single midas site. -/
def sampleTables : SensorTables :=
  { midas := [sampleRow], tmu := [], tame := [], other := [] }

/-- A raw directory record whose free-text name carries a MIDAS marker,
a GPS reference pair and a trailing direction segment. -/
def sampleRawMidas : RawSite :=
  { id := 2
    name := "MIDAS site A1M/2259B GPS Ref: 514029;294356; Southbound"
    description := "A1M/2259B"
    longitude := "-0.320275"
    latitude := "52.535158"
    status := "Active" }

/-- A raw directory record whose name contains none of the upper-case
markers but does contain the lower-case fragments midas and tmu. -/
def trickySite : RawSite :=
  { id := 1
    name := "midas tmu"
    description := "d"
    longitude := "lo"
    latitude := "la"
    status := "Active" }

/-- Boolean success projector for Except values. -/
def exceptIsOk : Except ε α → Bool
  | .ok _ => true
  | .error _ => false

/-! ### Helper lemmas -/

theorem get_url_counterAfter (resp : HttpResponse) (m : UrlMetadata) (total c : Nat) :
    (get_url resp m total c).counterAfter = c + 1 := by
  cases h : resp.rows <;> simp [get_url, h]

theorem runWorkers_counter (requests : List (HttpResponse × UrlMetadata))
    (total c : Nat) :
    (runWorkers requests total c).2 = c + requests.length := by
  induction requests generalizing c with
  | nil => simp [runWorkers]
  | cons hd tl ih =>
    obtain ⟨resp, m⟩ := hd
    simp [runWorkers, ih, get_url_counterAfter]
    omega

theorem runWorkers_length (requests : List (HttpResponse × UrlMetadata))
    (total c : Nat) :
    (runWorkers requests total c).1.length = requests.length := by
  induction requests generalizing c with
  | nil => simp [runWorkers]
  | cons hd tl ih =>
    obtain ⟨resp, m⟩ := hd
    simp [runWorkers, ih]

theorem runWorkers_get (requests : List (HttpResponse × UrlMetadata))
    (total c : Nat) (j : Nat) (h : j < requests.length) :
    (runWorkers requests total c).1.get
        ⟨j, by rw [runWorkers_length]; exact h⟩ =
      get_url (requests.get ⟨j, h⟩).1 (requests.get ⟨j, h⟩).2 total (c + j) := by
  induction requests generalizing c j with
  | nil => exact absurd h (by simp)
  | cons hd tl ih =>
    obtain ⟨resp, m⟩ := hd
    cases j with
    | zero => simp [runWorkers]
    | succ j' =>
      have h' : j' < tl.length := by simpa using h
      have := ih (get_url resp m total c).counterAfter j' h'
      simp only [runWorkers, List.get_cons_succ]
      rw [this, get_url_counterAfter]
      ring_nf

theorem download_ok (site_name : String)
    (hname : site_name = "midas" ∨ site_name = "tame" ∨ site_name = "tmu")
    (sd ed : String) (reqs : List (HttpResponse × UrlMetadata))
    (tr : Bool) (path : String) (c : Nat) :
    download site_name sd ed reqs tr path c =
      .ok { csvPath :=
              if tr then path ++ "/" ++ site_name ++ "_" ++ sd ++ "-" ++ ed ++ "_TEST_RUN.csv"
              else path ++ "/" ++ site_name ++ "_" ++ sd ++ "-" ++ ed ++ ".csv"
            headerWritten := get_headers
            outcomes := (runWorkers reqs reqs.length c).1
            counterAfter := c + reqs.length } := by
  simp [download, hname, runWorkers_counter]

/-! ### Claim C1 -/

/-- Claim C1, as stated, is false at a singleton request list: with
testRun true, the slice metadata[1:2] taken in main.py line 120 of a
one-element list is empty, so the download phase processes 0 requests
for that category, not exactly one. -/
theorem c1_counterexample :
    Except.map (fun r => r.outcomes.length)
      (download "midas" "2021-01-01" "2021-01-31"
        (testRunSlice true [(sampleOkResponse, sampleMetadata)]) true "/run" 0) =
      .ok 0 ∧ (0 : Nat) ≠ 1 := by
  exact ⟨rfl, by decide⟩

/-- Claim C1 (amended): when testRun is true the pipeline slices each
category list to metadata[1:2]; for a list with at least two elements
this is exactly the element at ordinal position 1, the download phase
then processes exactly that one request (1 request, and never N, since
N is at least 2); for a list with fewer than two elements the slice is
empty and zero requests are processed. -/
theorem c1_amended (l : List (HttpResponse × UrlMetadata)) :
    (∀ h : 2 ≤ l.length,
      testRunSlice true l = [l.get ⟨1, by omega⟩] ∧
      (∀ sd ed path c, Except.map (fun r => r.outcomes.length)
        (download "midas" sd ed (testRunSlice true l) true path c) = .ok 1) ∧
      (1 : Nat) ≠ l.length) ∧
    (l.length < 2 → testRunSlice true l = []) := by
  constructor
  · intro h
    have hslice : testRunSlice true l = [l.get ⟨1, by omega⟩] := by
      match l, h with
      | a :: b :: rest, _ => simp [testRunSlice]
    refine ⟨hslice, ?_, by omega⟩
    intro sd ed path c
    rw [download_ok "midas" (Or.inl rfl), hslice]
    simp [Except.map, runWorkers_length]
  · intro h
    match l, h with
    | [], _ => simp [testRunSlice]
    | [a], _ => simp [testRunSlice]

/-- Closed instantiation of the amended claim C1 at a concrete
two-element request list. -/
theorem c1_amended_witness :
    testRunSlice true
        [(sampleMalformedResponse, sampleMetadata), (sampleOkResponse, sampleMetadata)] =
      [(sampleOkResponse, sampleMetadata)] ∧
    Except.map (fun r => r.outcomes.length)
      (download "midas" "2021-01-01" "2021-01-31"
        (testRunSlice true
          [(sampleMalformedResponse, sampleMetadata), (sampleOkResponse, sampleMetadata)])
        true "/run" 0) = .ok 1 := by
  have h := (c1_amended
    [(sampleMalformedResponse, sampleMetadata), (sampleOkResponse, sampleMetadata)]).1
    (by decide)
  exact ⟨h.1, h.2.1 "2021-01-01" "2021-01-31" "/run" 0⟩

/-! ### Claim C2 -/

/-- Claim C2, as stated, is false: the COUNTER of download.py is a
module-level global initialized once at import and never reset between
category phases. In a run where the midas phase completes one request
and the tmu phase completes one request, the counter at the end of the
midas phase is 1, and the tmu phase continues from it, so the single tmu
request observes counter value 2 after its increment; were the counter
re-initialized to zero at the start of the tmu phase, that value would
be 1. -/
theorem c2_counterexample :
    Except.map
      (fun r => (r.1.counterAfter, r.2.1.outcomes.map GetUrlEffects.counterAfter))
      (run_downloads "2021-01-01" "2021-01-31" "/run" false
        [(sampleOkResponse, sampleMetadata)] [(sampleOkResponse, sampleMetadata)] []) =
      .ok (1, [2]) ∧ (2 : Nat) ≠ 1 := by
  exact ⟨rfl, by decide⟩

/-- Claim C2 (amended): the progress counter is initialized to zero once
at module import, not per phase; each completed request increments it
exactly once regardless of outcome, so after the midas phase it equals
the number of midas requests, and each later phase starts from the value
the previous phase left behind (the counter is shared across the three
categories, accumulating across the run). -/
theorem c2_amended (sd ed path : String) (tr : Bool)
    (midasR tmuR tameR : List (HttpResponse × UrlMetadata)) :
    Except.map
      (fun r => (r.1.counterAfter, r.2.1.counterAfter, r.2.2.counterAfter))
      (run_downloads sd ed path tr midasR tmuR tameR) =
      .ok ((testRunSlice tr midasR).length,
           (testRunSlice tr midasR).length + (testRunSlice tr tmuR).length,
           (testRunSlice tr midasR).length + (testRunSlice tr tmuR).length +
             (testRunSlice tr tameR).length) := by
  rw [run_downloads, download_ok "midas" (Or.inl rfl)]
  dsimp only
  rw [download_ok "tmu" (Or.inr (Or.inr rfl))]
  dsimp only
  rw [download_ok "tame" (Or.inr (Or.inl rfl))]
  dsimp only [Except.map]
  simp

/-! ### Claim C3 -/

/-- Claim C3: for every request whose response has a non-2xx status and
a body still parseable as the expected JSON shape, the worker logs the
status and URL (the logging.error call at download.py lines 245-248) but
raises nothing, still transforms the body and appends its rows to the
category CSV, and when the status is 5xx additionally sleeps 5 seconds
before returning. -/
theorem c3_non2xx_logged_appended (resp : HttpResponse) (m : UrlMetadata)
    (total c : Nat) (rows : List (List String))
    (hrows : resp.rows = some rows)
    (hstatus : ¬(200 ≤ resp.status_code ∧ resp.status_code < 300)) :
    (get_url resp m total c).errorLogged = some (resp.status_code, m.url) ∧
    (get_url resp m total c).appendedRows = some (response_to_df rows m) ∧
    (get_url resp m total c).raisedMalformed = false ∧
    (500 ≤ resp.status_code → resp.status_code < 600 →
      (get_url resp m total c).sleptSeconds = 5) := by
  have hne : resp.status_code ≠ 200 := by omega
  refine ⟨?_, ?_, ?_, ?_⟩ <;> simp [get_url, hrows, hne]
  intro h5 h6
  simp [h5, h6]

/-- Closed instantiation of claim C3 at a concrete 503 response with a
parseable body. -/
theorem c3_witness :
    (get_url sample503Response sampleMetadata 1 0).errorLogged =
        some (503, sampleMetadata.url) ∧
    (get_url sample503Response sampleMetadata 1 0).appendedRows =
        some (response_to_df [["A1M/2259B", "2021-01-01T00:00:00", "00:29:00"]]
          sampleMetadata) ∧
    (get_url sample503Response sampleMetadata 1 0).raisedMalformed = false ∧
    (get_url sample503Response sampleMetadata 1 0).sleptSeconds = 5 := by
  have h := c3_non2xx_logged_appended sample503Response sampleMetadata 1 0
    [["A1M/2259B", "2021-01-01T00:00:00", "00:29:00"]] rfl (by decide)
  exact ⟨h.1, h.2.1, h.2.2.1, h.2.2.2 (by decide) (by decide)⟩

/-! ### Claim C4 -/

/-- Claim C4, as stated, is false in its logging part: for a batch with
one malformed-body request, that request raises MalformedPayload at the
parse (download.py line 241), before the logging.error call (lines
245-248), and the executor.map results are never consumed (lines
297-307), so the failure is silently swallowed and nothing is logged
for it. In the batch below the malformed request shows raisedMalformed
true, no appended rows, and errorLogged none, while the claim demands
the failure be logged; the other request is processed normally. -/
theorem c4_counterexample :
    Except.map
      (fun r => r.outcomes.map
        (fun e => (e.raisedMalformed, e.errorLogged, e.appendedRows)))
      (download "midas" "2021-01-01" "2021-01-31"
        [(sampleMalformedResponse, sampleMetadata), (sampleOkResponse, sampleMetadata)]
        false "/run" 0) =
      .ok [(true, none, none),
           (false, none,
            some (response_to_df [["A1M/2259B", "2021-01-01T00:00:00", "00:14:00"]]
              sampleMetadata))] ∧
    (none : Option (Nat × String)) ≠ some (200, sampleMetadata.url) := by
  exact ⟨rfl, by simp⟩

/-- Claim C4 (amended): if one request in a batch has an unparseable
body, that single request fails with MalformedPayload, the failure is
silently swallowed (nothing is logged for it), its rows are not written,
every other request is processed exactly as it would be alone, and
download still returns once every request has been dispatched and its
worker has returned (one outcome per request). -/
theorem c4_amended (sd ed path : String) (tr : Bool) (c : Nat)
    (reqs : List (HttpResponse × UrlMetadata)) :
    Except.map (fun r => r.outcomes) (download "midas" sd ed reqs tr path c) =
      .ok (runWorkers reqs reqs.length c).1 ∧
    (runWorkers reqs reqs.length c).1.length = reqs.length ∧
    (∀ j (h : j < reqs.length),
      (runWorkers reqs reqs.length c).1.get
          ⟨j, by rw [runWorkers_length]; exact h⟩ =
        get_url (reqs.get ⟨j, h⟩).1 (reqs.get ⟨j, h⟩).2 reqs.length (c + j)) ∧
    (∀ j (h : j < reqs.length), (reqs.get ⟨j, h⟩).1.rows = none →
      ((runWorkers reqs reqs.length c).1.get
          ⟨j, by rw [runWorkers_length]; exact h⟩).raisedMalformed = true ∧
      ((runWorkers reqs reqs.length c).1.get
          ⟨j, by rw [runWorkers_length]; exact h⟩).appendedRows = none ∧
      ((runWorkers reqs reqs.length c).1.get
          ⟨j, by rw [runWorkers_length]; exact h⟩).errorLogged = none) := by
  refine ⟨?_, runWorkers_length reqs reqs.length c, runWorkers_get reqs reqs.length c, ?_⟩
  · rw [download_ok "midas" (Or.inl rfl)]
    rfl
  · intro j h hnone
    rw [runWorkers_get reqs reqs.length c j h]
    simp only [List.get_eq_getElem] at hnone
    simp [get_url, hnone]

/-- Closed instantiation of the amended claim C4 at a batch holding one
malformed request and one well-formed request. -/
theorem c4_amended_witness :
    Except.map (fun r => r.outcomes)
      (download "midas" "2021-01-01" "2021-01-31"
        [(sampleMalformedResponse, sampleMetadata), (sampleOkResponse, sampleMetadata)]
        false "/run" 0) =
      .ok (runWorkers
        [(sampleMalformedResponse, sampleMetadata), (sampleOkResponse, sampleMetadata)]
        2 0).1 ∧
    ((runWorkers
        [(sampleMalformedResponse, sampleMetadata), (sampleOkResponse, sampleMetadata)]
        2 0).1.get ⟨0, by rw [runWorkers_length]; decide⟩).raisedMalformed = true := by
  have h := c4_amended "2021-01-01" "2021-01-31" "/run" false 0
    [(sampleMalformedResponse, sampleMetadata), (sampleOkResponse, sampleMetadata)]
  exact ⟨h.1, (h.2.2.2 0 (by decide) rfl).1⟩

/-! ### Claim C5 -/

/-- Claim C5: site-name classification uses case-sensitive substring
matching in priority order MIDAS, then TMU, then TAME, then Legacy Site;
a string containing none of these substrings is passed through with the
original string returned unchanged. -/
theorem c5_classification (s : String) :
    ("MIDAS".toList <:+: s.toList → name_string_cleaner s = "midas") ∧
    (¬("MIDAS".toList <:+: s.toList) → "TMU".toList <:+: s.toList →
      name_string_cleaner s = "tmu") ∧
    (¬("MIDAS".toList <:+: s.toList) → ¬("TMU".toList <:+: s.toList) →
      "TAME".toList <:+: s.toList → name_string_cleaner s = "tame") ∧
    (¬("MIDAS".toList <:+: s.toList) → ¬("TMU".toList <:+: s.toList) →
      ¬("TAME".toList <:+: s.toList) → "Legacy Site".toList <:+: s.toList →
      name_string_cleaner s = "Legacy Site") ∧
    (¬("MIDAS".toList <:+: s.toList) → ¬("TMU".toList <:+: s.toList) →
      ¬("TAME".toList <:+: s.toList) → ¬("Legacy Site".toList <:+: s.toList) →
      name_string_cleaner s = s) := by
  refine ⟨?_, ?_, ?_, ?_, ?_⟩ <;>
    intros <;> simp_all [name_string_cleaner, strContains]

/-- Closed instantiation of claim C5: one concrete string per branch,
including a priority collision (a string holding both MIDAS and TAME)
and a passthrough string. -/
theorem c5_witness :
    name_string_cleaner "xMIDASy TAME" = "midas" ∧
    name_string_cleaner "Site TMU 42" = "tmu" ∧
    name_string_cleaner "aTAMEb" = "tame" ∧
    name_string_cleaner "old Legacy Site here" = "Legacy Site" ∧
    name_string_cleaner "hello midas" = "hello midas" := by
  refine ⟨(c5_classification _).1 (by decide),
    (c5_classification _).2.1 (by decide) (by decide),
    (c5_classification _).2.2.1 (by decide) (by decide) (by decide),
    (c5_classification _).2.2.2.1 (by decide) (by decide) (by decide) (by decide),
    (c5_classification _).2.2.2.2 (by decide) (by decide) (by decide) (by decide)⟩

/-! ### Claim C6 -/

/-- Every string the direction cleaner can return. -/
theorem direction_string_cleaner_cases (t : String) :
    direction_string_cleaner t = "eastbound" ∨
    direction_string_cleaner t = "northbound" ∨
    direction_string_cleaner t = "southbound" ∨
    direction_string_cleaner t = "westbound" ∨
    direction_string_cleaner t = "clockwise" ∨
    direction_string_cleaner t = "legacy site" ∨
    direction_string_cleaner t = "carriageway connector" ∨
    direction_string_cleaner t = t := by
  unfold direction_string_cleaner
  split_ifs <;> simp

/-- Claim C6: the direction canonicalization is idempotent; applying
direction_string_cleaner twice yields the same result as applying it
once, for every string. -/
theorem c6_direction_cleaner_idempotent (s : String) :
    direction_string_cleaner (direction_string_cleaner s) =
      direction_string_cleaner s := by
  rcases direction_string_cleaner_cases s with h | h | h | h | h | h | h | h <;>
    rw [h]
  · rfl
  · rfl
  · rfl
  · rfl
  · rfl
  · rfl
  · rfl
  · exact h

/-! ### Claim C7 -/

/-- Claim C7: for calendar dates in YYYY-MM-DD form, the generator
reformats both into compact DDMMYYYY form and emits exactly one request
per site record per category, preserving bucket order, with the URL
template base/reports/start/to/end/daily?sites=id&page=1&page_size=40000;
in particular start 2021-01-01, end 2021-01-31 and id 2 yield a URL
containing reports/01012021/to/31012021/daily?sites=2&page=1&page_size=40000. -/
theorem c7_generator (tables : SensorTables) (sd ed : String)
    (p q : Nat × Nat × Nat)
    (hsd : parseDate sd = some p) (hed : parseDate ed = some q) :
    get_sensor_urls tables sd ed =
      .ok (tables.midas.map
            (rowToUrlMetadata (strftime_ddmmyyyy p) (strftime_ddmmyyyy q)),
           tables.tmu.map
            (rowToUrlMetadata (strftime_ddmmyyyy p) (strftime_ddmmyyyy q)),
           tables.tame.map
            (rowToUrlMetadata (strftime_ddmmyyyy p) (strftime_ddmmyyyy q))) ∧
    (∀ r : LookupRow,
      (rowToUrlMetadata (strftime_ddmmyyyy p) (strftime_ddmmyyyy q) r).url =
        sensor_url (strftime_ddmmyyyy p) (strftime_ddmmyyyy q) r.id) ∧
    parseDate "2021-01-01" = some (2021, 1, 1) ∧
    strftime_ddmmyyyy (2021, 1, 1) = "01012021" ∧
    parseDate "2021-01-31" = some (2021, 1, 31) ∧
    strftime_ddmmyyyy (2021, 1, 31) = "31012021" ∧
    strContains (sensor_url "01012021" "31012021" 2)
      "reports/01012021/to/31012021/daily?sites=2&page=1&page_size=40000" = true := by
  refine ⟨?_, fun r => rfl, by decide, by decide, by decide, by decide, by decide⟩
  simp [get_sensor_urls, hsd, hed, create_sensor_metadata_tuples, SensorTables.get]

/-- Closed instantiation of claim C7 at a one-site midas table with the
date range of the scenario. -/
theorem c7_witness :
    get_sensor_urls sampleTables "2021-01-01" "2021-01-31" =
      .ok ([rowToUrlMetadata "01012021" "31012021" sampleRow], [], []) ∧
    strContains ((rowToUrlMetadata "01012021" "31012021" sampleRow).url)
      "reports/01012021/to/31012021/daily?sites=2&page=1&page_size=40000" = true := by
  have h := c7_generator sampleTables "2021-01-01" "2021-01-31"
    (2021, 1, 1) (2021, 1, 31) (by decide) (by decide)
  exact ⟨h.1, h.2.2.2.2.2.2⟩

/-! ### Claim C8 -/

theorem count_filter_eq {α : Type} [DecidableEq α] (p : α → Bool)
    (l : List α) (a : α) :
    (l.filter p).count a = if p a then l.count a else 0 := by
  induction l with
  | nil => simp
  | cons b t ih =>
    rcases eq_or_ne a b with hab | hab
    · subst hab
      by_cases hb : p a <;> simp [List.filter_cons, List.count_cons, hb, ih]
    · have hba : (b = a) = False := by simp [Ne.symm hab]
      by_cases hb : p b <;>
        simp [List.filter_cons, List.count_cons, hb, ih, hba]

/-- Claim C8, as stated, is false: the buckets of get_sites_by_sensor are
substring filters on the cleaned name, not a partition by the classified
category. A directory record whose raw name contains no upper-case
marker passes through name cleaning unchanged, and when that name holds
both the lower-case fragments midas and tmu the record lands in both the
midas and the tmu bucket: across the four buckets it appears twice, not
exactly once. -/
theorem c8_counterexample :
    ((get_sites_by_sensor [trickySite]).1.midas.length = 1 ∧
     (get_sites_by_sensor [trickySite]).1.tmu.length = 1 ∧
     (get_sites_by_sensor [trickySite]).1.tame.length = 0 ∧
     (get_sites_by_sensor [trickySite]).1.other.length = 0 ∧
     (get_sites_by_sensor [trickySite]).2.length = 1) ∧
    (1 + 1 + 0 + 0 : Nat) ≠ 1 := by
  exact ⟨⟨rfl, rfl, rfl, rfl, rfl⟩, by decide⟩

/-- Claim C8 (amended): the resolver buckets the cleaned site records by
substring matching on the cleaned name (midas, tmu, tame; other holds
precisely the records matching none of the three), each bucket preserves
the original directory order (a stable filter of the cleaned directory
list), and every record whose cleaned name matches at most one of the
three keywords appears in exactly one bucket; a record whose cleaned
name matches several keywords appears in several buckets. -/
theorem c8_amended (sites : List RawSite) :
    ((get_sites_by_sensor sites).2 = sites.map cleanSite) ∧
    (List.Sublist (get_sites_by_sensor sites).1.midas (get_sites_by_sensor sites).2 ∧
     List.Sublist (get_sites_by_sensor sites).1.tmu (get_sites_by_sensor sites).2 ∧
     List.Sublist (get_sites_by_sensor sites).1.tame (get_sites_by_sensor sites).2 ∧
     List.Sublist (get_sites_by_sensor sites).1.other (get_sites_by_sensor sites).2) ∧
    (∀ r : LookupRow, r ∈ (get_sites_by_sensor sites).1.other ↔
      r ∈ (get_sites_by_sensor sites).2 ∧
      ¬(strContains r.name "midas" = true ∨ strContains r.name "tmu" = true ∨
        strContains r.name "tame" = true)) ∧
    (∀ r : LookupRow,
      (if strContains r.name "midas" then 1 else 0) +
        (if strContains r.name "tmu" then 1 else 0) +
        (if strContains r.name "tame" then 1 else 0) ≤ 1 →
      (get_sites_by_sensor sites).1.midas.count r +
        (get_sites_by_sensor sites).1.tmu.count r +
        (get_sites_by_sensor sites).1.tame.count r +
        (get_sites_by_sensor sites).1.other.count r =
      (get_sites_by_sensor sites).2.count r) := by
  refine ⟨rfl, ⟨List.filter_sublist _, List.filter_sublist _,
    List.filter_sublist _, List.filter_sublist _⟩, ?_, ?_⟩
  · intro r
    rw [show (get_sites_by_sensor sites).1.other =
      (get_sites_by_sensor sites).2.filter (fun r =>
        !(strContains r.name "midas" || strContains r.name "tmu" ||
          strContains r.name "tame")) from rfl]
    rw [List.mem_filter]
    simp [-Bool.or_eq_true]
    tauto
  · intro r hr
    rw [show (get_sites_by_sensor sites).1.midas =
      (get_sites_by_sensor sites).2.filter (fun r => strContains r.name "midas") from rfl]
    rw [show (get_sites_by_sensor sites).1.tmu =
      (get_sites_by_sensor sites).2.filter (fun r => strContains r.name "tmu") from rfl]
    rw [show (get_sites_by_sensor sites).1.tame =
      (get_sites_by_sensor sites).2.filter (fun r => strContains r.name "tame") from rfl]
    rw [show (get_sites_by_sensor sites).1.other =
      (get_sites_by_sensor sites).2.filter (fun r =>
        !(strContains r.name "midas" || strContains r.name "tmu" ||
          strContains r.name "tame")) from rfl]
    rw [count_filter_eq, count_filter_eq, count_filter_eq, count_filter_eq]
    cases h1 : strContains r.name "midas" <;>
      cases h2 : strContains r.name "tmu" <;>
      cases h3 : strContains r.name "tame" <;>
      simp [h1, h2, h3] at hr ⊢

/-- Closed instantiation of the amended claim C8: a directory of one
record with a MIDAS marker yields a record that appears in exactly one
bucket (as many bucket occurrences as directory occurrences). -/
theorem c8_amended_witness :
    (get_sites_by_sensor [sampleRawMidas]).1.midas.count (cleanSite sampleRawMidas) +
      (get_sites_by_sensor [sampleRawMidas]).1.tmu.count (cleanSite sampleRawMidas) +
      (get_sites_by_sensor [sampleRawMidas]).1.tame.count (cleanSite sampleRawMidas) +
      (get_sites_by_sensor [sampleRawMidas]).1.other.count (cleanSite sampleRawMidas) =
    (get_sites_by_sensor [sampleRawMidas]).2.count (cleanSite sampleRawMidas) := by
  exact (c8_amended [sampleRawMidas]).2.2.2 (cleanSite sampleRawMidas) (by decide)

/-! ### Claim C9 -/

/-- Claim C9: for every category name outside midas, tmu, tame, both the
metadata generator and the download operation fail immediately with the
InvalidCategory error (a ValueError), download doing so before its
output file is created or truncated (the error branch of the model
carries no DownloadResult, hence no file creation); for a name inside
the set this error is never raised. -/
theorem c9_invalid_category (sensor_tables : SensorTables) (s e : String)
    (name sd ed path : String) (reqs : List (HttpResponse × UrlMetadata))
    (tr : Bool) (c : Nat) :
    (¬(name = "midas" ∨ name = "tame" ∨ name = "tmu") →
      create_sensor_metadata_tuples sensor_tables s e name =
        .error "Available Sensors are: midas, tame, tmu." ∧
      download name sd ed reqs tr path c =
        .error "Available sites are: midas, tame, tmu.") ∧
    ((name = "midas" ∨ name = "tame" ∨ name = "tmu") →
      exceptIsOk (create_sensor_metadata_tuples sensor_tables s e name) = true ∧
      exceptIsOk (download name sd ed reqs tr path c) = true) := by
  constructor
  · intro h
    exact ⟨by simp [create_sensor_metadata_tuples, h], by simp [download, h]⟩
  · intro h
    constructor
    · simp [create_sensor_metadata_tuples, h, exceptIsOk]
    · rw [download_ok name h]
      rfl

/-- Closed instantiation of claim C9 at the category name other (the
residual bucket, which is never downloaded) and at the valid name
midas. -/
theorem c9_witness :
    create_sensor_metadata_tuples sampleTables "01012021" "31012021" "other" =
      .error "Available Sensors are: midas, tame, tmu." ∧
    download "other" "2021-01-01" "2021-01-31" [] false "/run" 0 =
      .error "Available sites are: midas, tame, tmu." ∧
    exceptIsOk (create_sensor_metadata_tuples sampleTables "01012021" "31012021" "midas") =
      true ∧
    exceptIsOk (download "midas" "2021-01-01" "2021-01-31" [] false "/run" 0) = true := by
  have hbad := (c9_invalid_category sampleTables "01012021" "31012021"
    "other" "2021-01-01" "2021-01-31" "/run" [] false 0).1 (by decide)
  have hgood := (c9_invalid_category sampleTables "01012021" "31012021"
    "midas" "2021-01-01" "2021-01-31" "/run" [] false 0).2 (Or.inl rfl)
  exact ⟨hbad.1, hbad.2, hgood.1, hgood.2⟩

end RoadData
